import Mathlib

/-!
Shallow embedding of the token-lifecycle, polling-coordinator and
charge-control logic of the enodeforha Home Assistant integration
(src/enodeforha/__init__.py, src/enodeforha/switch.py,
src/enodeforha/config_flow.py, src/enodeforha/const.py).

Python dicts that are only ever replaced wholesale (never mutated
field-by-field) are modelled as immutable Lean structures; the process-wide
hass.data[DOMAIN] maps are modelled as association lists where assignment
conses a fresh binding (lookup takes the first binding, matching
last-writer-wins of dict assignment).  Timestamps are integers (seconds).
HTTP traffic is modelled by passing the responses the network would return
as explicit arguments.
-/

namespace Enode

/-- Association-list lookup, modelling a Python dict read d.get(k). -/
def alookup {α : Type} : List (String × α) → String → Option α
  | [], _ => none
  | (k, v) :: rest, key => if k = key then some v else alookup rest key

/-- const.py line 68: TOKEN_EXPIRY_BUFFER = 300 (renew 5 minutes before expiry). -/
def TOKEN_EXPIRY_BUFFER : Int := 300

/-- The token_info dict built at __init__.py lines 96-101 / 231-235:
keys client_id, client_secret, access_token, token_expiry. -/
structure TokenInfo where
  client_id : String
  client_secret : String
  access_token : String
  token_expiry : Int
deriving DecidableEq, Repr

/-- Body of a successful OAuth token response: access_token plus the
optional expires_in field the server may send. -/
structure TokenData where
  access_token : String
  expires_in : Option Int
deriving DecidableEq, Repr

/-- Outcome of the POST to the OAuth endpoint as seen by the caller:
either a parsed 2xx JSON body, or a failure (non-2xx raised by
raise_for_status, or a transport error). -/
inductive OAuthResult where
  | ok (td : TokenData)
  | err
deriving DecidableEq, Repr

/-- A point-in-time timer created by event.async_track_point_in_time
(__init__.py line 199).  armed = true while it is still pending: the
cancel closure stored in renewal_tasks disarms it, and firing consumes it. -/
structure Timer where
  integrationId : String
  fireAt : Int
  armed : Bool
deriving DecidableEq, Repr

/-- The process-wide hass.data[DOMAIN] state relevant to the token
lifecycle (__init__.py lines 48-53): the tokens map, and the
renewal_tasks map holding, per integration_id, a cancel handle for the
currently scheduled renewal timer.  All timers ever created live in
timers; a handle is the index of its timer in that list. -/
structure HAData where
  tokens : List (String × TokenInfo)
  renewal_tasks : List (String × Nat)
  timers : List Timer
deriving DecidableEq, Repr

/-- The hass.data[DOMAIN] maps right after async_setup. -/
def emptyHA : HAData := ⟨[], [], []⟩

/-- Per-vehicle coordinator state (EnodeCoordinator.__init__,
__init__.py lines 155-182).  token_info is the binding self._token_info:
the Python attribute holds a reference to a dict, but since no token dict
is ever mutated in place (renewal builds a fresh dict, lines 231-235),
holding the value is observationally identical to holding the reference. -/
structure Coordinator where
  vehicle_id : String
  integration_id : String
  token_info : TokenInfo
  renewal_attempted : Bool
deriving DecidableEq, Repr

/-- Disarm the timer at index k (the effect of calling the cancel
closure stored in renewal_tasks, or of the timer firing). -/
def disarmAt : List Timer → Nat → List Timer
  | [], _ => []
  | t :: ts, 0 => { t with armed := false } :: ts
  | t :: ts, n + 1 => t :: disarmAt ts n

/-- The cancellation step at __init__.py lines 196-197: if a handle for
this integration_id is registered, invoke it, disarming its timer. -/
def cancelPrior (st : HAData) (iid : String) : List Timer :=
  match alookup st.renewal_tasks iid with
  | some k => disarmAt st.timers k
  | none => st.timers

/-- EnodeCoordinator.schedule_token_renewal (__init__.py lines 189-203):
compute renewal_time = expiry − TOKEN_EXPIRY_BUFFER, cancel the prior
timer for this integration_id if one is registered, arm a new timer and
store its handle in renewal_tasks. -/
def schedule_token_renewal (st : HAData) (iid : String) (expiry : Int) : HAData :=
  { st with
    timers := cancelPrior st iid ++ [⟨iid, expiry - TOKEN_EXPIRY_BUFFER, true⟩],
    renewal_tasks := (iid, (cancelPrior st iid).length) :: st.renewal_tasks }

/-- EnodeCoordinator.renew_token (__init__.py lines 210-250), with the
OAuth response passed in.  On a 2xx response the expiry is
now + 3600 (line 229 hardcodes one hour; the response field expires_in is
not consulted), a fresh token dict is built, stored in the tokens map and
in self._token_info, the next renewal is scheduled and the
renewal_attempted flag is cleared.  On any failure the error is logged
and re-raised; nothing is updated or scheduled.  The Bool records whether
the renewal succeeded. -/
def renew_token (c : Coordinator) (st : HAData) (now : Int) (oauth : OAuthResult) :
    Coordinator × HAData × Bool :=
  match oauth with
  | .ok td =>
      let expiry : Int := now + 3600
      let newTok : TokenInfo :=
        { c.token_info with access_token := td.access_token, token_expiry := expiry }
      let st1 : HAData := { st with tokens := (c.integration_id, newTok) :: st.tokens }
      let st2 : HAData := schedule_token_renewal st1 c.integration_id expiry
      ({ c with token_info := newTok, renewal_attempted := false }, st2, true)
  | .err => (c, st, false)

/-- The Authorization header built at the start of a fetch cycle
(__init__.py lines 254-257) from the coordinator's own token binding. -/
def buildAuthHeader (c : Coordinator) : String :=
  "Bearer " ++ c.token_info.access_token

/-- Replace the element at position n (used to model rebinding one
coordinator attribute while leaving every other coordinator untouched). -/
def setAt {α : Type} : List α → Nat → α → List α
  | [], _, _ => []
  | _ :: xs, 0, a => a :: xs
  | x :: xs, n + 1, a => x :: setAt xs n a

/-- A set of coordinators sharing one hass instance. -/
structure Fleet where
  hass : HAData
  coords : List Coordinator
deriving DecidableEq, Repr

/-- Coordinator number i runs renew_token successfully with response td.
Per the source, renew_token writes only hass.data[DOMAIN]["tokens"],
the renewal timers, and its own self._token_info (line 238); no other
coordinator object is touched. -/
def fleetRenew (f : Fleet) (i : Nat) (now : Int) (td : TokenData) : Fleet :=
  match f.coords[i]? with
  | none => f
  | some c =>
      let r := renew_token c f.hass now (.ok td)
      { hass := r.2.1, coords := setAt f.coords i r.1 }

/-- The token_info dict built during async_setup_entry's initial token
creation (__init__.py lines 86-101): expiry is now + 3600 (line 94),
regardless of what the response body carries. -/
def setup_entry_create_token (client_id client_secret : String) (now : Int)
    (td : TokenData) : TokenInfo :=
  ⟨client_id, client_secret, td.access_token, now + 3600⟩

/-- validate_credentials (config_flow.py lines 54-79): a non-200 status
fails; a 200 response yields a token record whose expiry is
now + int(token_data.get("expires_in", 3600)). -/
def validate_credentials (client_id client_secret : String) (now : Int)
    (status : Nat) (td : TokenData) : Except String TokenInfo :=
  if status ≠ 200 then
    .error ("Authentication failed: API returned status " ++ toString status)
  else
    .ok ⟨client_id, client_secret, td.access_token, now + td.expires_in.getD 3600⟩

/-- The information sub-object of a vehicle record; all fields optional
in the JSON. -/
structure VehicleInfo where
  displayName : Option String
  brand : Option String
  model : Option String
  vin : Option String
  year : Option Int
deriving DecidableEq, Repr

/-- The chargeState sub-object of a vehicle record, with the fields the
switch platform reads; every field may be null or absent in the JSON. -/
structure ChargeState where
  isCharging : Option Bool
  isPluggedIn : Option Bool
  isFullyCharged : Option Bool
  batteryLevel : Option Int
  chargeLimit : Option Int
deriving DecidableEq, Repr

/-- One element of the response's data list. -/
structure Vehicle where
  id : Option String
  information : Option VehicleInfo
  chargeState : Option ChargeState
deriving DecidableEq, Repr

/-- What a GET of the vehicles endpoint produced: a response with a
status code (body meaningful when 2xx), or a transport error
(aiohttp.ClientError). -/
inductive GetResult where
  | resp (status : Nat) (body : List Vehicle)
  | netErr
deriving DecidableEq, Repr

/-- The network behaviour one fetch cycle can observe: the responses to
the first GET, to the OAuth renewal POST (if reached), and to the retry
GET (if reached). -/
structure FetchEnv where
  firstGet : GetResult
  oauth : OAuthResult
  retryGet : GetResult
deriving DecidableEq, Repr

/-- Result of a fetch cycle: the vehicle payload, or UpdateFailed. -/
inductive FetchOutcome where
  | ok (v : Vehicle)
  | updateFailed (msg : String)
deriving DecidableEq, Repr

/-- Record of a fetch cycle: updated coordinator and store, the outcome,
the Authorization header of every GET issued (in order), and how many
times renew_token was invoked within the cycle. -/
structure FetchResult where
  coord : Coordinator
  hass : HAData
  outcome : FetchOutcome
  getHeaders : List String
  renewCalls : Nat
deriving DecidableEq, Repr

/-- The display_name variable (__init__.py line 327): the displayName
field with the literal placeholder default. -/
def display_name_of (info : Option VehicleInfo) : String :=
  ((info.getD ⟨none, none, none, none, none⟩).displayName).getD
    "Displayname not present in json result"

/-- The name_by_user computation (__init__.py lines 338-342), exactly as
written: the guard is a chain of disequalities joined by Python or. -/
def name_by_user (info : Option VehicleInfo) : String :=
  let i := info.getD ⟨none, none, none, none, none⟩
  let display_name := i.displayName.getD "Displayname not present in json result"
  let brand := i.brand.getD "Unknown brand"
  let model := i.model.getD "Unknown model"
  if display_name ≠ "Displayname not present in json result" ∨ display_name ≠ "Unknown"
      ∨ display_name ≠ "" ∨ display_name ≠ "None" then
    display_name
  else
    brand ++ " " ++ model

/-- Tail of a fetch cycle after a request succeeded (__init__.py lines
286-295): reset the renewal_attempted flag, then select this
coordinator's vehicle from the data list, failing with UpdateFailed when
it is absent. -/
def processBody (c : Coordinator) (st : HAData) (body : List Vehicle)
    (hs : List String) (n : Nat) : FetchResult :=
  match body.find? (fun v => v.id == some c.vehicle_id) with
  | none =>
      ⟨{ c with renewal_attempted := false }, st,
        .updateFailed ("Error updating data: Vehicle " ++ c.vehicle_id
          ++ " not found in API response"), hs, n⟩
  | some v => ⟨{ c with renewal_attempted := false }, st, .ok v, hs, n⟩

/-- EnodeCoordinator._async_update_data (__init__.py lines 252-377).
Success of a response means raise_for_status does not raise, i.e.
status < 400.  A 401 on the first GET with renewal_attempted still false
sets the flag, awaits renew_token, rebuilds the header and retries the
GET exactly once; every failure raises and is converted to UpdateFailed
by the surrounding except clauses. -/
def fetchCycle (c : Coordinator) (st : HAData) (now : Int) (env : FetchEnv) :
    FetchResult :=
  let h1 := buildAuthHeader c
  match env.firstGet with
  | .netErr => ⟨c, st, .updateFailed "Network error", [h1], 0⟩
  | .resp status body =>
      if status = 401 ∧ c.renewal_attempted = false then
        let c1 := { c with renewal_attempted := true }
        match renew_token c1 st now env.oauth with
        | (c2, st2, success) =>
            if success then
              let h2 := buildAuthHeader c2
              match env.retryGet with
              | .netErr => ⟨c2, st2, .updateFailed "Network error", [h1, h2], 1⟩
              | .resp s2 body2 =>
                  if s2 < 400 then processBody c2 st2 body2 [h1, h2] 1
                  else ⟨c2, st2,
                    .updateFailed ("Error updating data: HTTP " ++ toString s2),
                    [h1, h2], 1⟩
            else
              ⟨c2, st2, .updateFailed "Error updating data: token renewal failed",
                [h1], 1⟩
      else
        if status < 400 then processBody c st body [h1] 0
        else ⟨c, st, .updateFailed ("Error updating data: HTTP " ++ toString status),
          [h1], 0⟩

/-- How a control call terminates, as seen past the handle_state_condition
decorator (switch.py lines 35-44).  stateCondition: an EnodeStateCondition
reached the decorator, which caught it and returned False (a no-op, not
an error).  hardError: a HomeAssistantError escaped (switch.py lines
361-366, logged at error level).  typeError: a Python TypeError escaped
everything (the decorator catches only EnodeStateCondition). -/
inductive ControlOutcome where
  | success
  | stateCondition (msg : String)
  | hardError (msg : String)
  | typeError (msg : String)
deriving DecidableEq, Repr

/-- What the control POST produced: a response with status and optional
JSON message field, or a transport error. -/
inductive PostResult where
  | resp (status : Nat) (message : Option String)
  | netErr
deriving DecidableEq, Repr

/-- EnodeChargeControlSwitch._can_start_charging (switch.py lines
263-285).  Each get falls back per Python truthiness; the final check
evaluates battery_level >= target_level, which in Python raises TypeError
when battery_level is an int and target_level is None (line 282 guards
only battery_level against None). -/
def can_start_charging (cs : ChargeState) : Except String (Bool × String) :=
  if cs.isCharging = some true then
    .ok (false, "Vehicle is already charging")
  else if cs.isPluggedIn ≠ some true then
    .ok (false, "Vehicle is not plugged in")
  else if cs.isFullyCharged = some true then
    .ok (false, "Vehicle is already fully charged")
  else
    match cs.batteryLevel, cs.chargeLimit with
    | some b, some t =>
        if b ≥ t then
          .ok (false, "Battery level (" ++ toString b ++ "%) is at or above target ("
            ++ toString t ++ "%)")
        else .ok (true, "")
    | some _, none =>
        .error "TypeError: comparison of int and NoneType is not supported"
    | none, _ => .ok (true, "")

/-- Python str.lower for the ASCII action words used here, character by
character. -/
def pyLower (s : String) : String := String.mk (s.data.map Char.toLower)

/-- EnodeChargeControlSwitch._control_charging (switch.py lines 337-366).
The whole body sits in one try block: the EnodeStateCondition raised for
a 400 response (line 354) is itself caught by the except Exception clause
(line 361), which logs at error level and raises HomeAssistantError, as
is any other non-2xx (raise_for_status) or transport failure. -/
def control_charging (action : String) (post : PostResult) : ControlOutcome :=
  match post with
  | .resp 400 m =>
      .hardError ("Error controlling charging: Cannot " ++ pyLower action
        ++ " charging: " ++ m.getD "Unknown error")
  | .resp s _ =>
      if s < 400 then .success
      else .hardError ("Error controlling charging: HTTP " ++ toString s)
  | .netErr => .hardError "Error controlling charging: network error"

/-- EnodeSmartChargingSwitch._set_smart_charging (switch.py lines
182-211): same structure as _control_charging, with its own messages. -/
def set_smart_charging (state : Bool) (post : PostResult) : ControlOutcome :=
  let verb := if state then "enable" else "disable"
  match post with
  | .resp 400 m =>
      .hardError ("Error setting smart charging: Cannot " ++ verb
        ++ " smart charging: " ++ m.getD "Unknown error")
  | .resp s _ =>
      if s < 400 then .success
      else .hardError ("Error setting smart charging: HTTP " ++ toString s)
  | .netErr => .hardError "Error setting smart charging: network error"

/-- EnodeChargeControlSwitch.async_turn_on under the
handle_state_condition decorator (switch.py lines 307-320): run the
precondition check against the snapshot; a failed check raises
EnodeStateCondition which the decorator converts into the no-op result;
a TypeError from the check escapes uncaught; otherwise POST
action START.  The second component records the action POSTed, none when
no POST was issued. -/
def async_turn_on_charge (cs : ChargeState) (post : PostResult) :
    ControlOutcome × Option String :=
  match can_start_charging cs with
  | .error e => (.typeError e, none)
  | .ok (false, reason) => (.stateCondition ("Cannot start charging: " ++ reason), none)
  | .ok (true, _) => (control_charging "START" post, some "START")

/-- The failure conditions for StartCharging as the specification lists
them: already charging, not plugged in, fully charged, or battery level
at or above the charge limit. -/
def startPreFails (cs : ChargeState) : Bool :=
  cs.isCharging == some true
  || !(cs.isPluggedIn == some true)
  || cs.isFullyCharged == some true
  || (match cs.batteryLevel, cs.chargeLimit with
      | some b, some t => b ≥ t
      | _, _ => false)

/-- The lock state of one coordinator: integration_id, whether its own
asyncio.Lock self._token_lock (created per instance in
EnodeCoordinator.__init__, line 172) is held, and whether a renew_token
call of this coordinator is currently between lock acquisition and
release (in flight across the OAuth round-trip). -/
structure RenewActor where
  integration_id : String
  locked : Bool
  renewing : Bool
deriving DecidableEq, Repr

/-- A coordinator begins renew_token (__init__.py line 212): it awaits
its own self._token_lock.  The step is enabled only when that instance
lock is free; no other lock is consulted, because no shared lock exists. -/
def startRenew (cs : List RenewActor) (i : Nat) : Option (List RenewActor) :=
  match cs[i]? with
  | none => none
  | some a =>
      if a.locked then none
      else some (setAt cs i { a with locked := true, renewing := true })

/-- A coordinator finishes its renew_token call and releases its lock. -/
def finishRenew (cs : List RenewActor) (i : Nat) : Option (List RenewActor) :=
  match cs[i]? with
  | none => none
  | some a =>
      if a.renewing then some (setAt cs i { a with locked := false, renewing := false })
      else none

/-- The timer at index k fires: the event loop consumes it (it will not
fire again) and then runs the bound callback, renew_token. -/
def fireTimer (st : HAData) (k : Nat) : HAData :=
  { st with timers := disarmAt st.timers k }

/-- Every handle registered in renewal_tasks points at a timer carrying
its own integration_id. -/
def tasksSound (st : HAData) : Prop :=
  ∀ iid k, alookup st.renewal_tasks iid = some k →
    ∃ t, st.timers[k]? = some t ∧ t.integrationId = iid

/-- Every armed timer is the one its integration_id's registered handle
points at. -/
def armedTracked (st : HAData) : Prop :=
  ∀ i t, st.timers[i]? = some t → t.armed = true →
    alookup st.renewal_tasks t.integrationId = some i

/-- Well-formedness of the renewal bookkeeping. -/
def WF (st : HAData) : Prop := tasksSound st ∧ armedTracked st

/-- At most one armed timer exists for the given integration_id. -/
def atMostOneArmed (st : HAData) (iid : String) : Prop :=
  ∀ (i j : Nat) (ti tj : Timer),
    st.timers[i]? = some ti → ti.armed = true → ti.integrationId = iid →
    st.timers[j]? = some tj → tj.armed = true → tj.integrationId = iid → i = j

/-- Discriminator: did the call end as a caught state condition? -/
def isStateCondition : ControlOutcome → Bool
  | .stateCondition _ => true
  | _ => false

/-- Sample shared token record for concrete instances. -/
def tok1 : TokenInfo := ⟨"cid", "sec", "tok1", 3600⟩

/-- Two vehicle coordinators configured for the same integration_id, both
initialized from the shared token record, the way async_setup_entry
builds them (__init__.py line 113). -/
def twoCoordFleet : Fleet :=
  ⟨⟨[("enodeforha_1", tok1)], [], []⟩,
    [⟨"vA", "enodeforha_1", tok1, false⟩,
     ⟨"vB", "enodeforha_1", tok1, false⟩]⟩

/-- The hass.data state right after the initial schedule_token_renewal of
a token acquired at T = 0 with one hour of validity. -/
def stW : HAData := schedule_token_renewal emptyHA "enodeforha_1" 3600

theorem alookup_cons {α : Type} (k : String) (v : α) (l : List (String × α))
    (key : String) :
    alookup ((k, v) :: l) key = if k = key then some v else alookup l key := rfl

theorem processBody_renewCalls (c : Coordinator) (st : HAData) (body : List Vehicle)
    (hs : List String) (n : Nat) : (processBody c st body hs n).renewCalls = n := by
  unfold processBody
  cases List.find? (fun v => v.id == some c.vehicle_id) body <;> rfl

theorem processBody_getHeaders (c : Coordinator) (st : HAData) (body : List Vehicle)
    (hs : List String) (n : Nat) : (processBody c st body hs n).getHeaders = hs := by
  unfold processBody
  cases List.find? (fun v => v.id == some c.vehicle_id) body <;> rfl

theorem disarmAt_length (ts : List Timer) (k : Nat) :
    (disarmAt ts k).length = ts.length := by
  induction ts generalizing k with
  | nil => rfl
  | cons t ts ih =>
      cases k with
      | zero => rfl
      | succ n => simp [disarmAt, ih]

theorem disarmAt_getElem_ne (ts : List Timer) (k i : Nat) (h : i ≠ k) :
    (disarmAt ts k)[i]? = ts[i]? := by
  induction ts generalizing k i with
  | nil => rfl
  | cons t ts ih =>
      cases k with
      | zero =>
          cases i with
          | zero => exact absurd rfl h
          | succ m => simp [disarmAt]
      | succ n =>
          cases i with
          | zero => simp [disarmAt]
          | succ m => simpa [disarmAt] using ih n m (by omega)

theorem disarmAt_getElem_eq (ts : List Timer) (k : Nat) :
    (disarmAt ts k)[k]? = (ts[k]?).map (fun t => { t with armed := false }) := by
  induction ts generalizing k with
  | nil => cases k <;> rfl
  | cons t ts ih =>
      cases k with
      | zero => simp [disarmAt]
      | succ n => simpa [disarmAt] using ih n

theorem setAt_getElem_ne {α : Type} (l : List α) (i j : Nat) (a : α) (h : j ≠ i) :
    (setAt l i a)[j]? = l[j]? := by
  induction l generalizing i j with
  | nil => rfl
  | cons x xs ih =>
      cases i with
      | zero =>
          cases j with
          | zero => exact absurd rfl h
          | succ m => simp [setAt]
      | succ n =>
          cases j with
          | zero => simp [setAt]
          | succ m => simpa [setAt] using ih n m (by omega)

theorem setAt_getElem_eq {α : Type} (l : List α) (i : Nat) (a : α)
    (h : i < l.length) :
    (setAt l i a)[i]? = some a := by
  induction l generalizing i with
  | nil => simp at h
  | cons x xs ih =>
      cases i with
      | zero => simp [setAt]
      | succ n => simpa [setAt] using ih n (by simpa using h)

theorem cancelPrior_length (st : HAData) (iid : String) :
    (cancelPrior st iid).length = st.timers.length := by
  unfold cancelPrior
  cases alookup st.renewal_tasks iid with
  | none => rfl
  | some k => exact disarmAt_length st.timers k

/-- cancelPrior only flips armed flags: the timer at each index keeps its
integration_id (and its fireAt). -/
theorem cancelPrior_id_preserved (st : HAData) (iid : String) (k : Nat) (t : Timer)
    (h : st.timers[k]? = some t) :
    ∃ t2, (cancelPrior st iid)[k]? = some t2 ∧ t2.integrationId = t.integrationId := by
  unfold cancelPrior
  cases alookup st.renewal_tasks iid with
  | none => exact ⟨t, h, rfl⟩
  | some k0 =>
      by_cases hk : k = k0
      · subst hk
        refine ⟨{ t with armed := false }, ?_, rfl⟩
        rw [disarmAt_getElem_eq, h]
        rfl
      · exact ⟨t, by rw [disarmAt_getElem_ne _ _ _ hk]; exact h, rfl⟩

/-- Armed survivors of cancelPrior were armed before and, under WF, are
not the timers of the cancelled integration_id. -/
theorem getElem_some_lt {α : Type} (l : List α) (n : Nat) (a : α)
    (h : l[n]? = some a) : n < l.length := by
  by_contra hc
  rw [List.getElem?_eq_none (Nat.le_of_not_lt hc)] at h
  exact Option.noConfusion h

theorem cancelPrior_armed_src (st : HAData) (iid : String) (i : Nat) (t : Timer)
    (hWF : WF st)
    (h : (cancelPrior st iid)[i]? = some t) (harm : t.armed = true) :
    st.timers[i]? = some t ∧ t.integrationId ≠ iid := by
  obtain ⟨_, hTracked⟩ := hWF
  unfold cancelPrior at h
  cases hcase : alookup st.renewal_tasks iid with
  | none =>
      rw [hcase] at h
      refine ⟨h, fun hid => ?_⟩
      have := hTracked i t h harm
      rw [hid, hcase] at this
      exact Option.noConfusion this
  | some k0 =>
      rw [hcase] at h
      by_cases hk : i = k0
      · subst hk
        rw [disarmAt_getElem_eq] at h
        cases hts : st.timers[i]? with
        | none => rw [hts] at h; exact Option.noConfusion h
        | some t0 =>
            rw [hts] at h
            have ht : t = { t0 with armed := false } := (Option.some.inj h).symm
            rw [ht] at harm
            exact Bool.noConfusion harm
      · rw [disarmAt_getElem_ne _ _ _ hk] at h
        refine ⟨h, fun hid => ?_⟩
        have := hTracked i t h harm
        rw [hid, hcase] at this
        exact hk (Option.some.inj this).symm

/-- schedule_token_renewal preserves the renewal bookkeeping invariant. -/
theorem schedule_preserves_WF (st : HAData) (iid : String) (e : Int) (hWF : WF st) :
    WF (schedule_token_renewal st iid e) := by
  obtain ⟨hSound, hTracked⟩ := hWF
  constructor
  · intro iid2 k hk
    rw [show (schedule_token_renewal st iid e).renewal_tasks
          = (iid, (cancelPrior st iid).length) :: st.renewal_tasks from rfl,
        alookup_cons] at hk
    by_cases hid : iid = iid2
    · rw [if_pos hid] at hk
      refine ⟨⟨iid, e - TOKEN_EXPIRY_BUFFER, true⟩, ?_, hid⟩
      rw [← Option.some.inj hk]
      exact List.getElem?_concat_length _ _
    · rw [if_neg hid] at hk
      obtain ⟨t, hts, htid⟩ := hSound iid2 k hk
      have hlt : k < (cancelPrior st iid).length := by
        rw [cancelPrior_length]
        exact getElem_some_lt _ _ _ hts
      obtain ⟨t2, hc, hid2⟩ := cancelPrior_id_preserved st iid k t hts
      refine ⟨t2, ?_, hid2.trans htid⟩
      rw [show (schedule_token_renewal st iid e).timers
            = cancelPrior st iid ++ [⟨iid, e - TOKEN_EXPIRY_BUFFER, true⟩] from rfl,
          List.getElem?_append_left hlt]
      exact hc
  · intro i t h harm
    rw [show (schedule_token_renewal st iid e).timers
          = cancelPrior st iid ++ [⟨iid, e - TOKEN_EXPIRY_BUFFER, true⟩] from rfl] at h
    rw [show (schedule_token_renewal st iid e).renewal_tasks
          = (iid, (cancelPrior st iid).length) :: st.renewal_tasks from rfl,
        alookup_cons]
    by_cases hi : i < (cancelPrior st iid).length
    · rw [List.getElem?_append_left hi] at h
      obtain ⟨hsrc, hne⟩ := cancelPrior_armed_src st iid i t ⟨hSound, hTracked⟩ h harm
      rw [if_neg (fun hid => hne hid.symm)]
      exact hTracked i t hsrc harm
    · have hge : (cancelPrior st iid).length ≤ i := Nat.le_of_not_lt hi
      rw [List.getElem?_append_right hge] at h
      have : i - (cancelPrior st iid).length = 0 := by
        cases hd : i - (cancelPrior st iid).length with
        | zero => rfl
        | succ m => rw [hd] at h; exact Option.noConfusion h
      rw [this] at h
      have ht : t = ⟨iid, e - TOKEN_EXPIRY_BUFFER, true⟩ := (Option.some.inj h).symm
      have hieq : i = (cancelPrior st iid).length := by omega
      rw [ht, hieq, if_pos rfl]

/-- Under the tracking invariant, no two distinct armed timers can share
an integration_id. -/
theorem armedTracked_atMostOne (st : HAData) (h : armedTracked st) (iid : String) :
    atMostOneArmed st iid := by
  intro i j ti tj hi hiarm hiid hj hjarm hjid
  have h1 := h i ti hi hiarm
  have h2 := h j tj hj hjarm
  rw [hiid] at h1
  rw [hjid] at h2
  exact Option.some.inj (h1.symm.trans h2)

/-- Under WF, scheduling disarms the previously armed timer of the same
integration_id at its old index. -/
theorem schedule_disarms_prior (st : HAData) (iid : String) (e : Int) (hWF : WF st)
    (i : Nat) (t : Timer) (hts : st.timers[i]? = some t)
    (harm : t.armed = true) (hid : t.integrationId = iid) :
    (schedule_token_renewal st iid e).timers[i]? = some { t with armed := false } := by
  obtain ⟨_, hTracked⟩ := hWF
  have hlook : alookup st.renewal_tasks iid = some i := by
    have := hTracked i t hts harm
    rwa [hid] at this
  have hcp : cancelPrior st iid = disarmAt st.timers i := by
    unfold cancelPrior
    rw [hlook]
  have hi : i < (cancelPrior st iid).length := by
    rw [cancelPrior_length]
    exact getElem_some_lt _ _ _ hts
  rw [show (schedule_token_renewal st iid e).timers
        = cancelPrior st iid ++ [⟨iid, e - TOKEN_EXPIRY_BUFFER, true⟩] from rfl,
      List.getElem?_append_left hi, hcp, disarmAt_getElem_eq, hts]
  rfl

/-- The timer armed by schedule_token_renewal is the last one, firing at
expiry − TOKEN_EXPIRY_BUFFER. -/
theorem schedule_arms_new (st : HAData) (iid : String) (e : Int) :
    (schedule_token_renewal st iid e).timers.getLast?
      = some ⟨iid, e - TOKEN_EXPIRY_BUFFER, true⟩ := by
  rw [show (schedule_token_renewal st iid e).timers
        = cancelPrior st iid ++ [⟨iid, e - TOKEN_EXPIRY_BUFFER, true⟩] from rfl]
  exact List.getLast?_concat _

theorem WF_emptyHA : WF emptyHA := by
  constructor
  · intro iid k h
    exact Option.noConfusion h
  · intro i t h
    rw [show emptyHA.timers = [] from rfl] at h
    simp at h

/-- C4 counterexample: a renewal whose OAuth response carries
expires_in = 7200 at now = 0 stores expiry 3600 (one hour hardcoded at
__init__.py line 229), not now + 7200; the initial token creation of
async_setup_entry (line 94) does the same. -/
theorem renew_ignores_expires_in :
    (renew_token ⟨"vA", "enodeforha_1", tok1, false⟩ emptyHA 0
        (.ok ⟨"tok2", some 7200⟩)).1.token_info.token_expiry = 3600
    ∧ (setup_entry_create_token "cid" "sec" 0 ⟨"tok2", some 7200⟩).token_expiry = 3600
    ∧ (3600 : Int) ≠ 0 + 7200 :=
  ⟨rfl, rfl, by decide⟩

/-- C4 (amended): only config_flow.validate_credentials computes the
expiry as now plus the server-provided expires_in with default 3600; the
async_setup_entry token creation and renew_token always store now + 3600,
whatever expires_in says. -/
theorem token_expiry_computation (cid sec : String) (now : Int) (td : TokenData)
    (c : Coordinator) (st : HAData) :
    validate_credentials cid sec now 200 td
      = .ok ⟨cid, sec, td.access_token, now + td.expires_in.getD 3600⟩
    ∧ (setup_entry_create_token cid sec now td).token_expiry = now + 3600
    ∧ (renew_token c st now (.ok td)).1.token_info.token_expiry = now + 3600
    ∧ alookup (renew_token c st now (.ok td)).2.1.tokens c.integration_id
      = some ⟨c.token_info.client_id, c.token_info.client_secret,
              td.access_token, now + 3600⟩ := by
  refine ⟨by simp [validate_credentials], rfl, rfl, ?_⟩
  simp [renew_token, schedule_token_renewal, alookup]

/-- C7: the guard at __init__.py line 339 is a chain of disequalities
joined by or, hence always true, so name_by_user always keeps
display_name: on a payload without displayName but with brand Tesla and
model Model 3 the result is the placeholder, never the documented
fallback to brand plus model.  In fact name_by_user coincides with
display_name_of on every payload: the fallback branch is dead. -/
theorem name_by_user_fallback_dead :
    name_by_user (some ⟨none, some "Tesla", some "Model 3", none, none⟩)
      = "Displayname not present in json result"
    ∧ name_by_user (some ⟨none, some "Tesla", some "Model 3", none, none⟩)
      ≠ "Tesla Model 3"
    ∧ ∀ info, name_by_user info = display_name_of info := by
  refine ⟨rfl, by decide, fun info => ?_⟩
  simp only [name_by_user, display_name_of]
  split
  · rfl
  · next hc =>
      push_neg at hc
      exact absurd (hc.1.symm.trans hc.2.1) (by decide)

/-- C5: a 400 response to a control POST raises EnodeStateCondition
inside the try block of _control_charging and _set_smart_charging, where
the except Exception clause catches it and re-raises HomeAssistantError:
the call ends as a hard error logged at error level, not as the
distinguishable no-op state condition the decorator was built to
return. -/
theorem control_400_becomes_hard_error :
    control_charging "START" (.resp 400 (some "Vehicle is unreachable"))
      = .hardError
        "Error controlling charging: Cannot start charging: Vehicle is unreachable"
    ∧ isStateCondition
        (control_charging "START" (.resp 400 (some "Vehicle is unreachable"))) = false
    ∧ set_smart_charging true (.resp 400 (some "Policy conflict"))
      = .hardError
        "Error setting smart charging: Cannot enable smart charging: Policy conflict"
    ∧ isStateCondition
        (set_smart_charging true (.resp 400 (some "Policy conflict"))) = false := by
  refine ⟨by decide, by decide, rfl, rfl⟩

/-- C10 counterexample: a chargeState with non-null batteryLevel 40 and
null chargeLimit on a vehicle that is already charging: the precondition
check returns the already-charging state condition before reaching the
comparison, so no TypeError is raised for this snapshot. -/
theorem battery_null_limit_not_always_typeerror :
    can_start_charging ⟨some true, some true, some false, some 40, none⟩
      = .ok (false, "Vehicle is already charging")
    ∧ async_turn_on_charge ⟨some true, some true, some false, some 40, none⟩
        (.resp 200 none)
      = (.stateCondition "Cannot start charging: Vehicle is already charging", none) :=
  ⟨rfl, rfl⟩

/-- C10 (amended): when the earlier checks pass (not charging, plugged
in, not fully charged) and batteryLevel is non-null while chargeLimit is
null, line 282 compares an int against None: the TypeError escapes the
handle_state_condition decorator (which catches only
EnodeStateCondition), and no POST is issued. -/
theorem battery_vs_null_limit_typeerror (cs : ChargeState) (post : PostResult)
    (b : Int)
    (h1 : cs.isCharging ≠ some true) (h2 : cs.isPluggedIn = some true)
    (h3 : cs.isFullyCharged ≠ some true) (h4 : cs.batteryLevel = some b)
    (h5 : cs.chargeLimit = none) :
    async_turn_on_charge cs post
      = (.typeError "TypeError: comparison of int and NoneType is not supported",
         none) := by
  unfold async_turn_on_charge can_start_charging
  rw [if_neg h1, if_neg (by simp [h2]), if_neg h3, h4, h5]

/-- Witness for the amended C10 at a concrete snapshot. -/
theorem battery_vs_null_limit_typeerror_witness :
    ((⟨some false, some true, some false, some 40, none⟩ : ChargeState).isCharging
        ≠ some true)
    ∧ async_turn_on_charge ⟨some false, some true, some false, some 40, none⟩
        (.resp 200 none)
      = (.typeError "TypeError: comparison of int and NoneType is not supported",
         none) :=
  ⟨by decide,
   battery_vs_null_limit_typeerror ⟨some false, some true, some false, some 40, none⟩
     (.resp 200 none) 40 (by decide) rfl (by decide) rfl rfl⟩

/-- C2 counterexample: two coordinators sharing integration_id
enodeforha_1 hold two distinct instance locks (self._token_lock is
created per EnodeCoordinator in __init__, line 172), so a renewal of each
can start while the other is in flight: both startRenew steps are
enabled from the initial state, reaching a state with two renewals in
flight for the same integration_id. -/
theorem concurrent_renewals_same_integration :
    (startRenew [⟨"enodeforha_1", false, false⟩, ⟨"enodeforha_1", false, false⟩]
        0).bind (fun s => startRenew s 1)
      = some [⟨"enodeforha_1", true, true⟩, ⟨"enodeforha_1", true, true⟩] := by
  decide

/-- C2 (amended): the asyncio lock serializes renew_token per coordinator
instance only: while a coordinator holds its own lock, a second renewal
of that same coordinator cannot start. -/
theorem token_lock_per_instance (cs : List RenewActor) (i : Nat) (a : RenewActor)
    (h : cs[i]? = some a) (hl : a.locked = true) :
    startRenew cs i = none := by
  unfold startRenew
  rw [h]
  simp [hl]

/-- Witness for the amended C2 at a concrete lock state. -/
theorem token_lock_per_instance_witness :
    ([(⟨"enodeforha_1", true, true⟩ : RenewActor)][0]? = some ⟨"enodeforha_1", true, true⟩)
    ∧ startRenew [⟨"enodeforha_1", true, true⟩] 0 = none :=
  ⟨rfl, token_lock_per_instance [⟨"enodeforha_1", true, true⟩] 0
    ⟨"enodeforha_1", true, true⟩ rfl rfl⟩

/-- C6: if any of the four StartCharging failure conditions holds for the
snapshot (already charging, not plugged in, fully charged, or battery
level at or above the charge limit), async_turn_on converts the raised
EnodeStateCondition into the no-op result and issues no POST; on the
scenario snapshot where every precondition holds (not charging, plugged
in, not full, batteryLevel 40 below chargeLimit 80) the POST with action
START is issued. -/
theorem start_preconditions_block_post (cs : ChargeState) (post : PostResult)
    (hfail : startPreFails cs = true) :
    (∃ m, async_turn_on_charge cs post = (.stateCondition m, none))
    ∧ async_turn_on_charge ⟨some false, some true, some false, some 40, some 80⟩
        (.resp 200 none)
      = (.success, some "START") := by
  refine ⟨?_, by decide⟩
  unfold async_turn_on_charge can_start_charging
  by_cases h1 : cs.isCharging = some true
  · rw [if_pos h1]
    exact ⟨_, rfl⟩
  · rw [if_neg h1]
    by_cases h2 : cs.isPluggedIn = some true
    · rw [if_neg (by simp [h2])]
      by_cases h3 : cs.isFullyCharged = some true
      · rw [if_pos h3]
        exact ⟨_, rfl⟩
      · rw [if_neg h3]
        cases hb : cs.batteryLevel with
        | none =>
            exfalso
            simp [startPreFails, h1, h2, h3, hb] at hfail
        | some b =>
            cases ht : cs.chargeLimit with
            | none =>
                exfalso
                simp [startPreFails, h1, h2, h3, hb, ht] at hfail
            | some t =>
                have hge : b ≥ t := by
                  simpa [startPreFails, h1, h2, h3, hb, ht] using hfail
                exact ⟨"Cannot start charging: " ++ ("Battery level (" ++ toString b
                  ++ "%) is at or above target (" ++ toString t ++ "%)"),
                  by simp [hge]⟩
    · rw [if_pos h2]
      exact ⟨_, rfl⟩

/-- Witness for C6 at the not-plugged-in scenario snapshot. -/
theorem start_preconditions_block_post_witness :
    startPreFails ⟨some false, some false, some false, some 40, some 80⟩ = true
    ∧ ((∃ m, async_turn_on_charge ⟨some false, some false, some false, some 40, some 80⟩
          (.resp 200 none) = (.stateCondition m, none))
      ∧ async_turn_on_charge ⟨some false, some true, some false, some 40, some 80⟩
          (.resp 200 none) = (.success, some "START")) :=
  ⟨by decide, start_preconditions_block_post
    ⟨some false, some false, some false, some 40, some 80⟩ (.resp 200 none) (by decide)⟩

/-- C1 counterexample: in twoCoordFleet both coordinators share
integration enodeforha_1 and the token record tok1.  After coordinator 0
successfully renews and obtains tok2, the credential store holds tok2,
but coordinator 1 — which performed no renewal of its own — still builds
the Authorization header of its next fetch cycle from tok1. -/
theorem sharing_coordinator_keeps_stale_token :
    (alookup (fleetRenew twoCoordFleet 0 0 ⟨"tok2", none⟩).hass.tokens
        "enodeforha_1").map (fun t => t.access_token) = some "tok2"
    ∧ ((fleetRenew twoCoordFleet 0 0 ⟨"tok2", none⟩).coords[1]?).map buildAuthHeader
      = some "Bearer tok1"
    ∧ "Bearer tok1" ≠ "Bearer tok2" :=
  ⟨by decide, by decide, by decide⟩

/-- C1 (amended): a successful renewal by one coordinator updates the
credential store and that coordinator's own binding, so its own next
fetch uses the new token; it touches no other coordinator object, so a
sharing coordinator's next fetch still presents the header built from
the token captured at its initialization, until its own renew_token runs
(typically through its 401 retry). -/
theorem renewal_updates_only_renewer (f : Fleet) (i j : Nat) (c : Coordinator)
    (now : Int) (td : TokenData)
    (hi : f.coords[i]? = some c) (hj : j ≠ i) :
    alookup (fleetRenew f i now td).hass.tokens c.integration_id
      = some ⟨c.token_info.client_id, c.token_info.client_secret,
              td.access_token, now + 3600⟩
    ∧ ((fleetRenew f i now td).coords[i]?).map buildAuthHeader
      = some ("Bearer " ++ td.access_token)
    ∧ (fleetRenew f i now td).coords[j]? = f.coords[j]? := by
  have hlt : i < f.coords.length := getElem_some_lt _ _ _ hi
  have heq : fleetRenew f i now td
      = ⟨(renew_token c f.hass now (.ok td)).2.1,
         setAt f.coords i (renew_token c f.hass now (.ok td)).1⟩ := by
    unfold fleetRenew
    rw [hi]
  rw [heq]
  refine ⟨?_, ?_, ?_⟩
  · simp [renew_token, schedule_token_renewal, alookup]
  · rw [show (⟨(renew_token c f.hass now (.ok td)).2.1,
         setAt f.coords i (renew_token c f.hass now (.ok td)).1⟩ : Fleet).coords
        = setAt f.coords i (renew_token c f.hass now (.ok td)).1 from rfl,
      setAt_getElem_eq _ _ _ hlt]
    rfl
  · exact setAt_getElem_ne _ _ _ _ hj

/-- Witness for the amended C1 on twoCoordFleet. -/
theorem renewal_updates_only_renewer_witness :
    (twoCoordFleet.coords[0]? = some ⟨"vA", "enodeforha_1", tok1, false⟩)
    ∧ (1 : Nat) ≠ 0
    ∧ (alookup (fleetRenew twoCoordFleet 0 0 ⟨"tok2", none⟩).hass.tokens "enodeforha_1"
        = some ⟨"cid", "sec", "tok2", 0 + 3600⟩
      ∧ ((fleetRenew twoCoordFleet 0 0 ⟨"tok2", none⟩).coords[0]?).map buildAuthHeader
        = some ("Bearer " ++ "tok2")
      ∧ (fleetRenew twoCoordFleet 0 0 ⟨"tok2", none⟩).coords[1]?
        = twoCoordFleet.coords[1]?) :=
  ⟨rfl, by decide,
   renewal_updates_only_renewer twoCoordFleet 0 1 ⟨"vA", "enodeforha_1", tok1, false⟩
     0 ⟨"tok2", none⟩ rfl (by decide)⟩

/-- C3: with the first GET answered 401 and renewal_attempted false for
the cycle, the coordinator sets the flag, awaits one renew_token, and
retries the GET exactly once with the renewed token (two GETs total in
the cycle); any failure of that one retry — a second 401, any other
non-2xx, or a transport error — ends the cycle as UpdateFailed with no
further retry. -/
theorem single_retry_on_401 (c : Coordinator) (st : HAData) (now : Int)
    (env : FetchEnv) (body : List Vehicle) (td : TokenData)
    (hflag : c.renewal_attempted = false)
    (hfirst : env.firstGet = .resp 401 body)
    (hoauth : env.oauth = .ok td) :
    (fetchCycle c st now env).renewCalls = 1
    ∧ (fetchCycle c st now env).getHeaders
      = [buildAuthHeader c, "Bearer " ++ td.access_token]
    ∧ (∀ s2 b2, env.retryGet = .resp s2 b2 → 400 ≤ s2 →
        (fetchCycle c st now env).outcome
          = .updateFailed ("Error updating data: HTTP " ++ toString s2))
    ∧ (env.retryGet = .netErr →
        (fetchCycle c st now env).outcome = .updateFailed "Network error") := by
  obtain ⟨fg, oa, rg⟩ := env
  simp only [] at hfirst hoauth
  subst hfirst hoauth
  cases rg with
  | netErr =>
      refine ⟨?_, ?_, ?_, ?_⟩
      · simp [fetchCycle, hflag, renew_token]
      · simp [fetchCycle, hflag, renew_token, buildAuthHeader]
      · intro s2 b2 h
        exact absurd h (by simp)
      · intro _
        simp [fetchCycle, hflag, renew_token]
  | resp s2 b2 =>
      refine ⟨?_, ?_, ?_, ?_⟩
      · by_cases hs : s2 < 400 <;>
          simp [fetchCycle, hflag, renew_token, processBody_renewCalls, hs]
      · by_cases hs : s2 < 400 <;>
          simp [fetchCycle, hflag, renew_token, processBody_getHeaders,
            buildAuthHeader, hs]
      · intro s2a b2a h hge
        injection h with hs2 hb2
        subst hs2 hb2
        have hnl : ¬s2 < 400 := Nat.not_lt.mpr hge
        simp [fetchCycle, hflag, renew_token, hnl]
      · intro h
        exact absurd h (by simp)

/-- Witness for C3: concrete 401 cycle whose retry is answered 401
again. -/
theorem single_retry_on_401_witness :
    ((⟨"vA", "enodeforha_1", tok1, false⟩ : Coordinator).renewal_attempted = false)
    ∧ ((⟨.resp 401 [], .ok ⟨"tok2", none⟩, .resp 401 []⟩ : FetchEnv).firstGet
        = .resp 401 [])
    ∧ ((fetchCycle ⟨"vA", "enodeforha_1", tok1, false⟩ emptyHA 0
          ⟨.resp 401 [], .ok ⟨"tok2", none⟩, .resp 401 []⟩).renewCalls = 1
      ∧ (fetchCycle ⟨"vA", "enodeforha_1", tok1, false⟩ emptyHA 0
          ⟨.resp 401 [], .ok ⟨"tok2", none⟩, .resp 401 []⟩).getHeaders
        = [buildAuthHeader ⟨"vA", "enodeforha_1", tok1, false⟩, "Bearer " ++ "tok2"]
      ∧ (∀ s2 b2, (⟨.resp 401 [], .ok ⟨"tok2", none⟩, .resp 401 []⟩ : FetchEnv).retryGet
            = .resp s2 b2 → 400 ≤ s2 →
          (fetchCycle ⟨"vA", "enodeforha_1", tok1, false⟩ emptyHA 0
            ⟨.resp 401 [], .ok ⟨"tok2", none⟩, .resp 401 []⟩).outcome
            = .updateFailed ("Error updating data: HTTP " ++ toString s2))
      ∧ ((⟨.resp 401 [], .ok ⟨"tok2", none⟩, .resp 401 []⟩ : FetchEnv).retryGet = .netErr →
          (fetchCycle ⟨"vA", "enodeforha_1", tok1, false⟩ emptyHA 0
            ⟨.resp 401 [], .ok ⟨"tok2", none⟩, .resp 401 []⟩).outcome
            = .updateFailed "Network error")) :=
  ⟨rfl, rfl,
   single_retry_on_401 ⟨"vA", "enodeforha_1", tok1, false⟩ emptyHA 0
     ⟨.resp 401 [], .ok ⟨"tok2", none⟩, .resp 401 []⟩ [] ⟨"tok2", none⟩ rfl rfl rfl⟩

/-- C8: scheduling a renewal for an integration_id in a well-formed state
cancels the previously armed timer of that id before arming the new one,
preserves well-formedness and hence the at-most-one-armed-timer-per-id
invariant, and the newly armed timer fires at expiry minus the 300
second buffer. -/
theorem schedule_renewal_single_armed (st : HAData) (iid : String) (e : Int)
    (hWF : WF st) :
    WF (schedule_token_renewal st iid e)
    ∧ (∀ id2, atMostOneArmed (schedule_token_renewal st iid e) id2)
    ∧ (∀ (i : Nat) (t : Timer),
        st.timers[i]? = some t → t.armed = true → t.integrationId = iid →
        (schedule_token_renewal st iid e).timers[i]? = some { t with armed := false })
    ∧ (schedule_token_renewal st iid e).timers.getLast?
      = some ⟨iid, e - TOKEN_EXPIRY_BUFFER, true⟩ := by
  have h1 := schedule_preserves_WF st iid e hWF
  exact ⟨h1, fun id2 => armedTracked_atMostOne _ h1.2 id2,
    fun i t a b c2 => schedule_disarms_prior st iid e hWF i t a b c2,
    schedule_arms_new st iid e⟩

/-- Witness for C8: the scenario of acquisition at T = 0 with one hour of
validity schedules the (sole) renewal timer for T = 3300. -/
theorem schedule_renewal_single_armed_witness :
    WF emptyHA
    ∧ (schedule_token_renewal emptyHA "enodeforha_1" 3600).timers.getLast?
      = some ⟨"enodeforha_1", 3300, true⟩ :=
  ⟨WF_emptyHA, by
    have h := (schedule_renewal_single_armed emptyHA "enodeforha_1" 3600 WF_emptyHA).2.2.2
    simpa [TOKEN_EXPIRY_BUFFER] using h⟩

/-- C9: when the scheduled timer of an integration_id fires (consuming
itself) and the renew_token call it runs fails, the failure path changes
no state and schedules nothing — renew_token calls
schedule_token_renewal only on its success path — so no armed renewal
timer remains for that integration_id and no future renewal will fire
until the integration is set up again. -/
theorem scheduled_renewal_failure_kills_chain (st : HAData) (c : Coordinator)
    (now : Int) (k : Nat)
    (hTracked : armedTracked st)
    (hk : alookup st.renewal_tasks c.integration_id = some k) :
    (renew_token c (fireTimer st k) now .err).2.1 = fireTimer st k
    ∧ (renew_token c (fireTimer st k) now .err).2.2 = false
    ∧ ∀ (i : Nat) (t : Timer), (fireTimer st k).timers[i]? = some t →
        t.integrationId = c.integration_id → t.armed = false := by
  refine ⟨rfl, rfl, fun i t h hid => ?_⟩
  by_cases hik : i = k
  · subst hik
    rw [show (fireTimer st i).timers = disarmAt st.timers i from rfl,
      disarmAt_getElem_eq] at h
    cases hts : st.timers[i]? with
    | none =>
        rw [hts] at h
        exact Option.noConfusion h
    | some t0 =>
        rw [hts] at h
        rw [← Option.some.inj h]
  · rw [show (fireTimer st k).timers = disarmAt st.timers k from rfl,
      disarmAt_getElem_ne _ _ _ hik] at h
    cases harm : t.armed with
    | false => rfl
    | true =>
        have htr := hTracked i t h harm
        rw [hid, hk] at htr
        exact absurd (Option.some.inj htr).symm hik

/-- Witness for C9: the timer scheduled in stW fires and the renewal
fails; afterwards no armed timer for enodeforha_1 remains. -/
theorem scheduled_renewal_failure_kills_chain_witness :
    armedTracked stW
    ∧ alookup stW.renewal_tasks "enodeforha_1" = some 0
    ∧ ((renew_token ⟨"vA", "enodeforha_1", tok1, false⟩ (fireTimer stW 0) 0 .err).2.1
        = fireTimer stW 0
      ∧ (renew_token ⟨"vA", "enodeforha_1", tok1, false⟩ (fireTimer stW 0) 0 .err).2.2
        = false
      ∧ ∀ (i : Nat) (t : Timer), (fireTimer stW 0).timers[i]? = some t →
          t.integrationId = "enodeforha_1" → t.armed = false) :=
  ⟨(schedule_preserves_WF emptyHA "enodeforha_1" 3600 WF_emptyHA).2,
   by decide,
   scheduled_renewal_failure_kills_chain stW ⟨"vA", "enodeforha_1", tok1, false⟩ 0 0
     (schedule_preserves_WF emptyHA "enodeforha_1" 3600 WF_emptyHA).2 (by decide)⟩

end Enode
